import Mathlib

/-!
Verification development for the VerifiQuant repository.

The repository ships a browser frontend in two revisions:
  * `src/static/app.js`   — the current revision (HTML rendering, `Number(...)`
    coercion, computation-mode badge);
  * `src/unnamed/part_001` — an earlier revision of the same script
    (plain-text rendering, no coercion, no badge).
The core solve pipeline described by the specification (card selection,
symbolic evaluation, refusal on missing inputs) is not present under `src/`;
where a claim concerns it, the corresponding definitions are modelled from
the specification and say so in their doc comment.

JavaScript dynamic values are embedded as the inductive `JSValue`; numbers
are `JSNum` (a rational or NaN — the binary-double limits of IEEE 754 are
abstracted away, which no claim here depends on).
-/

namespace VerifiQuant

/-- A JavaScript number: either NaN or a finite value, modelled as a
rational.  (Infinities and the float64 grid are abstracted away.) -/
inductive JSNum where
  | nan : JSNum
  | finite : ℚ → JSNum
deriving DecidableEq, Repr

/-- A JavaScript runtime value, covering the types a JSON response (plus
`undefined` for absent fields) can put into a step's `value` field. -/
inductive JSValue where
  | num : JSNum → JSValue
  | str : String → JSValue
  | boolean : Bool → JSValue
  | null : JSValue
  | undefined : JSValue
deriving DecidableEq, Repr

/-- JavaScript truthiness of a value (`if (v)`, `v ? a : b`). -/
def truthy : JSValue → Bool
  | .num .nan => false
  | .num (.finite q) => q != 0
  | .str s => s != ""
  | .boolean b => b
  | .null => false
  | .undefined => false

/-- Digit-string value; `none` when the list is empty or holds a non-digit. -/
def decDigits : List Char → Option Nat
  | [] => none
  | cs =>
    cs.foldl
      (fun acc c =>
        match acc with
        | none => none
        | some n => if c.isDigit then some (10 * n + (c.toNat - 48)) else none)
      (some 0)

/-- Parse an unsigned decimal literal (`12`, `12.5`, `.5`, `1.`) as a
rational; `none` when the characters are not such a literal. -/
def parseUnsigned (cs : List Char) : Option ℚ :=
  let ip := cs.takeWhile Char.isDigit
  let rest := cs.dropWhile Char.isDigit
  match rest with
  | [] => (decDigits ip).map (fun n => (n : ℚ))
  | '.' :: fp =>
    if fp.all Char.isDigit && (ip ≠ [] ∨ fp ≠ []) then
      some (((decDigits ip).getD 0 : ℚ)
        + ((decDigits fp).getD 0 : ℚ) / (10 : ℚ) ^ fp.length)
    else none
  | _ => none

/-- The JavaScript `Number(string)` coercion, modelled for plain decimal
literals: the empty string is `0`, a decimal literal with optional sign
parses to its value, anything else is NaN.  (Whitespace trimming,
hexadecimal and exponent forms are abstracted away; no claim depends on
which number a string coerces to, only on the result being a number.) -/
def parseDecimal (s : String) : JSNum :=
  match s.toList with
  | [] => .finite 0
  | '-' :: rest =>
    match parseUnsigned rest with
    | some q => .finite (-q)
    | none => .nan
  | '+' :: rest =>
    match parseUnsigned rest with
    | some q => .finite q
    | none => .nan
  | cs =>
    match parseUnsigned cs with
    | some q => .finite q
    | none => .nan

/-- The JavaScript `Number(v)` coercion on an arbitrary value. -/
def jsNumber : JSValue → JSNum
  | .num n => n
  | .str s => parseDecimal s
  | .boolean b => .finite (if b then 1 else 0)
  | .null => .finite 0
  | .undefined => .nan

/-- Left-pad a digit string with zeros to the given length. -/
def padZeros (len : Nat) (s : String) : String :=
  String.mk (List.replicate (len - s.length) '0') ++ s

/-- `x.toFixed(4)` on a finite rational: round `|x| * 10^4` to the nearest
integer (ties away from zero, as the ECMAScript algorithm picks the larger
candidate), then print sign, integer part and a 4-digit fraction. -/
def ratToFixed4 (q : ℚ) : String :=
  let scaled : ℚ := |q| * 10000 + 1 / 2
  let n : Nat := scaled.floor.toNat
  (if q < 0 then "-" else "")
    ++ toString (n / 10000) ++ "." ++ padZeros 4 (toString (n % 10000))

/-- `n.toFixed(4)` on a JavaScript number (NaN prints as "NaN"). -/
def jsNumToFixed4 : JSNum → String
  | .nan => "NaN"
  | .finite q => ratToFixed4 q

/-- A `v.toFixed(4)` method call on an arbitrary value: only number
receivers have the method; every other receiver raises a TypeError. -/
def jsToFixedCall : JSValue → Except String String
  | .num n => .ok (jsNumToFixed4 n)
  | _ => .error "TypeError: toFixed is not a function"

/-- Rendering of a finite rational in template interpolation.  (Abstracts
the shortest-roundtrip digit string JavaScript prints for a double; no
claim depends on the digits, only on both script revisions printing the
same value the same way.) -/
def ratDisplay (q : ℚ) : String :=
  if q.den = 1 then toString q.num
  else toString q.num ++ "/" ++ toString q.den

/-- JavaScript string interpolation of a value (the `String(v)` coercion
used by template literals). -/
def jsDisplay : JSValue → String
  | .num .nan => "NaN"
  | .num (.finite q) => ratDisplay q
  | .str s => s
  | .boolean true => "true"
  | .boolean false => "false"
  | .null => "null"
  | .undefined => "undefined"

/-- Whether a value is a JavaScript number. -/
def isNumValue : JSValue → Bool
  | .num _ => true
  | _ => false

/-! ## The response object

Both revisions of `renderResult(data)` read the same fields of the JSON
response object; `WireStep` is one element of `data.steps`.  The source
field named `variable` is a Lean keyword and is embedded as `varName`. -/

/-- One element of `data.steps`: `{variable, formula, value}`.  The
`value` field keeps the full JavaScript value type, since the old revision
calls `.toFixed(4)` on it directly. -/
structure WireStep where
  varName : String
  formula : String
  value : JSValue
deriving DecidableEq, Repr

/-- The response object `data`, with the fields the two scripts read.
`missing_inputs := none` models an absent field; `message := ""` models an
absent or empty message (both falsy in `data.message || ...`). -/
structure ResponseData where
  status : String
  card_id : String
  selection_reason : String
  inputs : List (String × JSValue)
  steps : List WireStep
  output_var : String
  output_value : JSValue
  is_fallback : JSValue
  reason : String
  missing_inputs : Option (List String)
  message : String
deriving DecidableEq, Repr

/-! ## renderResult, current revision (src/static/app.js, lines 30–68) -/

/-- `step.formula || "公式"` — the current revision substitutes the
placeholder when the formula string is falsy (empty). -/
def formulaShown (f : String) : String :=
  if f = "" then "公式" else f

/-- The `<li>` body the current revision builds for step `st` shown with
1-based number `i`:
`idx+1. step.variable = (step.formula || "公式") = Number(step.value).toFixed(4)`,
as an explicit method call that can in principle throw. -/
def stepTextNew (i : Nat) (st : WireStep) : Except String String := do
  let fixed ← jsToFixedCall (.num (jsNumber st.value))
  pure (toString i ++ ". " ++ st.varName ++ " = " ++ formulaShown st.formula
    ++ " = " ++ fixed)

/-- The line the old revision builds for step `st` with 1-based number `i`:
`idx+1. step.variable = step.formula = step.value.toFixed(4)` — no
`Number(...)` coercion, so a non-number value makes the call throw. -/
def stepTextOld (i : Nat) (st : WireStep) : Except String String := do
  let fixed ← jsToFixedCall st.value
  pure (toString i ++ ". " ++ st.varName ++ " = " ++ st.formula
    ++ " = " ++ fixed)

/-- `data.steps.map((step, idx) => ...)`: builds the per-step lines in
array order, handing the callback the 1-based display number; a throw in
the callback aborts the whole map, as in JavaScript. -/
def stepLinesE (f : Nat → WireStep → Except String String) :
    Nat → List WireStep → Except String (List String)
  | _, [] => .ok []
  | i, st :: rest => do
    let l ← f i st
    let ls ← stepLinesE f (i + 1) rest
    pure (l :: ls)

/-- The success content of the current revision's `innerHTML`, one field
per interpolated slot of the template (static markup omitted). -/
structure SuccessViewNew where
  calcMode : String
  modeClass : String
  cardId : String
  selectionReason : String
  inputsJson : List (String × JSValue)
  stepItems : List String
  outputVar : String
  outputValueText : String
deriving DecidableEq, Repr

/-- What the current revision writes into the result element. -/
inductive RenderedNew where
  | success : SuccessViewNew → RenderedNew
  | refused : (reason : String) → (missingLine : Option String) → RenderedNew
  | text : String → RenderedNew
deriving DecidableEq, Repr

/-- `data.missing_inputs?.length ? `<p>缺少欄位：...join(", ")</p>` : ""` —
the current revision shows the line only for a present, non-empty list. -/
def missingLineNew : Option (List String) → Option String
  | some (n :: ns) => some ("缺少欄位：" ++ String.intercalate ", " (n :: ns))
  | _ => none

/-- `data.missing_inputs ? `缺少欄位：...join(", ")` : ""` filtered by
`Boolean` — the old revision shows the line whenever the field is present,
an empty array being truthy in JavaScript. -/
def missingLineOld : Option (List String) → Option String
  | some l => some ("缺少欄位：" ++ String.intercalate ", " l)
  | none => none

/-- `data.message || "系統發生未知錯誤"`. -/
def messageShown (m : String) : String :=
  if m = "" then "系統發生未知錯誤" else m

/-- Content computation of `renderResult` in the current revision
(src/static/app.js lines 30–68): success branch builds the step list, the
mode badge from `is_fallback` truthiness, and the interpolated fields;
refused branch shows the reason and the conditional missing-fields line;
any other status falls through to the message text. -/
def renderNewE (d : ResponseData) : Except String RenderedNew :=
  if d.status = "success" then do
    let lines ← stepLinesE stepTextNew 1 d.steps
    pure (.success
      { calcMode := if truthy d.is_fallback then "LLM fallback" else "SymPy"
        modeClass := if truthy d.is_fallback then "badge-llm" else "badge-sympy"
        cardId := d.card_id
        selectionReason := d.selection_reason
        inputsJson := d.inputs
        stepItems := lines
        outputVar := d.output_var
        outputValueText := jsDisplay d.output_value })
  else if d.status = "refused" then
    pure (.refused d.reason (missingLineNew d.missing_inputs))
  else
    pure (.text (messageShown d.message))

/-! ## renderResult, old revision (src/unnamed/part_001, lines 30–62) -/

/-- The success content of the old revision's `textContent`, one field per
interpolated slot of its line list. -/
structure SuccessViewOld where
  cardId : String
  selectionReason : String
  inputsJson : List (String × JSValue)
  stepLines : List String
  outputVar : String
  outputValueText : String
deriving DecidableEq, Repr

/-- What the old revision writes into the result element. -/
inductive RenderedOld where
  | success : SuccessViewOld → RenderedOld
  | refused : (reason : String) → (missingLine : Option String) → RenderedOld
  | text : String → RenderedOld
deriving DecidableEq, Repr

/-- Content computation of `renderResult` in the old revision
(src/unnamed/part_001 lines 30–62): plain-text lines, no mode badge, no
formula placeholder, `toFixed` called on the raw value. -/
def renderOldE (d : ResponseData) : Except String RenderedOld :=
  if d.status = "success" then do
    let lines ← stepLinesE stepTextOld 1 d.steps
    pure (.success
      { cardId := d.card_id
        selectionReason := d.selection_reason
        inputsJson := d.inputs
        stepLines := lines
        outputVar := d.output_var
        outputValueText := jsDisplay d.output_value })
  else if d.status = "refused" then
    pure (.refused d.reason (missingLineOld d.missing_inputs))
  else
    pure (.text (messageShown d.message))

/-! ## Information content common to the two revisions (claim C8) -/

/-- The information items C8 enumerates for a success rendering: card id,
selection reason, inputs map, per-step lines, output variable and value. -/
structure SuccessInfo where
  cardId : String
  selectionReason : String
  inputs : List (String × JSValue)
  stepLines : List String
  outputVar : String
  outputValueText : String
deriving DecidableEq, Repr

/-- The information a rendering presents to the user. -/
inductive RenderInfo where
  | success : SuccessInfo → RenderInfo
  | refused : (reason : String) → (missingLine : Option String) → RenderInfo
  | errorText : String → RenderInfo
deriving DecidableEq, Repr

/-- Information content of a current-revision rendering (drops the
presentation-only mode badge and its CSS class). -/
def infoOfNew : RenderedNew → RenderInfo
  | .success v => .success
      { cardId := v.cardId, selectionReason := v.selectionReason
        inputs := v.inputsJson, stepLines := v.stepItems
        outputVar := v.outputVar, outputValueText := v.outputValueText }
  | .refused r m => .refused r m
  | .text t => .errorText t

/-- Information content of an old-revision rendering. -/
def infoOfOld : RenderedOld → RenderInfo
  | .success v => .success
      { cardId := v.cardId, selectionReason := v.selectionReason
        inputs := v.inputsJson, stepLines := v.stepLines
        outputVar := v.outputVar, outputValueText := v.outputValueText }
  | .refused r m => .refused r m
  | .text t => .errorText t

/-- Information presented by the current revision (or the thrown message). -/
def infoNew (d : ResponseData) : Except String RenderInfo :=
  (renderNewE d).map infoOfNew

/-- Information presented by the old revision (or the thrown message). -/
def infoOld (d : ResponseData) : Except String RenderInfo :=
  (renderOldE d).map infoOfOld

/-! ## The page state and the submit handler (src/static/app.js) -/

/-- The DOM state the script manipulates: the loader's `hidden` class, the
submit button's `disabled` flag, the result element's `hidden` class and
its content (`none` models cleared text). -/
structure Dom where
  loaderHidden : Bool
  buttonDisabled : Bool
  resultHidden : Bool
  resultContent : Option RenderedNew
deriving DecidableEq, Repr

/-- `setLoading(isLoading)` (app.js lines 25–28):
`loader.classList.toggle("hidden", !isLoading)` and
`button.disabled = isLoading`. -/
def setLoading (isLoading : Bool) (dom : Dom) : Dom :=
  { dom with loaderHidden := !isLoading, buttonDisabled := isLoading }

/-- `renderResult(data)` of the current revision as a DOM transformer: it
first removes the result element's `hidden` class, then computes and
assigns the content; on a throw the element is already visible but its
content unchanged, and the error carries the message. -/
def renderResultNewDom (d : ResponseData) (dom : Dom) :
    Except (String × Dom) Dom :=
  match renderNewE d with
  | .ok r => .ok { dom with resultHidden := false, resultContent := some r }
  | .error m => .error (m, { dom with resultHidden := false })

/-- The values the submit handler reads from the form at submit time. -/
structure FormState where
  question : String
  domainVal : String
  topicVal : String
deriving DecidableEq, Repr

/-- A JSON value of the request body (only strings and null occur). -/
inductive JsonVal where
  | jstr : String → JsonVal
  | jnull : JsonVal
deriving DecidableEq, Repr

/-- `domainSelect.value || null` — the empty string becomes JSON null. -/
def valueOrNull (s : String) : JsonVal :=
  if s = "" then .jnull else .jstr s

/-- The single `fetch("/api/solve", {...})` call the handler makes: URL,
method, and the serialized payload as its ordered key/value pairs. -/
structure SolveRequest where
  url : String
  method : String
  contentType : String
  body : List (String × JsonVal)
deriving DecidableEq, Repr

/-- The request built by the handler (app.js lines 76–87): payload object
`{question, domain, topic}` in that key order, POSTed to `/api/solve` as
JSON. -/
def mkSolveRequest (fs : FormState) : SolveRequest :=
  { url := "/api/solve"
    method := "POST"
    contentType := "application/json"
    body := [("question", .jstr fs.question),
             ("domain", valueOrNull fs.domainVal),
             ("topic", valueOrNull fs.topicVal)] }

/-- Outcome of `await fetch(...)` / `await response.json()`: the parsed
response object, or a rejection at either await. -/
inductive FetchOutcome where
  | ok : ResponseData → FetchOutcome
  | fetchThrow : String → FetchOutcome
  | jsonThrow : String → FetchOutcome
deriving DecidableEq, Repr

/-- The two-key object `{status: "error", message}` the catch block passes
to `renderResult`; the fields the error branch never reads are absent in
JavaScript and defaulted here. -/
def errorResponse (msg : String) : ResponseData :=
  { status := "error", card_id := "", selection_reason := "", inputs := []
    steps := [], output_var := "", output_value := .undefined
    is_fallback := .undefined, reason := "", missing_inputs := none
    message := msg }

/-- The handler's steps before the `try` block (app.js lines 72–74): hide
and clear the result element, then `setLoading(true)`. -/
def submitPrelude (dom0 : Dom) : Dom :=
  setLoading true { dom0 with resultHidden := true, resultContent := none }

/-- The form submit handler (app.js lines 70–95).  Returns the final DOM
state and the list of requests issued.  The `try` body builds the payload,
issues the single fetch, parses and renders; the `catch` renders
`{status:"error", message}`; the `finally` runs `setLoading(false)` even
when the catch-side render would itself throw (in which case the exception
propagates after `finally`, leaving the content as the catch left it). -/
def submitHandler (fs : FormState) (outcome : FetchOutcome) (dom0 : Dom) :
    Dom × List SolveRequest :=
  let dom1 := submitPrelude dom0
  let req := mkSolveRequest fs
  let tryRes : Except (String × Dom) Dom :=
    match outcome with
    | .fetchThrow m => .error (m, dom1)
    | .jsonThrow m => .error (m, dom1)
    | .ok d => renderResultNewDom d dom1
  let dom2 :=
    match tryRes with
    | .ok dm => dm
    | .error (m, dm) =>
      match renderResultNewDom (errorResponse m) dm with
      | .ok dm2 => dm2
      | .error (_, dm2) => dm2
  (setLoading false dom2, [req])

/-! ## updateTopicOptions (app.js lines 9–19)

`window.TOPIC_OPTIONS` is the configured domain→topics mapping, embedded
as a partial lookup `String → Option (List String)`; the result is the
topic select's option list as (value, text) pairs. -/

/-- `updateTopicOptions()`: reset the select to the single default option
`<option value="">全部主題</option>`, then append one option per entry of
`domain ? topicOptions[domain] || [] : []`, each with value = text =
the topic string. -/
def updateTopicOptions (topicOptions : String → Option (List String))
    (domainVal : String) : List (String × String) :=
  let topics := if domainVal = "" then [] else (topicOptions domainVal).getD []
  ("", "全部主題") :: topics.map (fun t => (t, t))

/-! ## The core solve pipeline

The core pipeline (CardSelector, SymbolicEngine, missing-input refusal,
confidence gate) is not present under `src/`; the repository only ships
its frontend and the design document.  The definitions below are
modelled from the specification (§2–§4, §8) and say so individually. -/

/-- Modelled from the spec (§3 FormulaCard): an expression-graph node —
leaves are input variables or constants, inner nodes pure arithmetic
operators. -/
inductive Expr where
  | input : String → Expr
  | const : ℚ → Expr
  | add : Expr → Expr → Expr
  | sub : Expr → Expr → Expr
  | mul : Expr → Expr → Expr
  | div : Expr → Expr → Expr
deriving DecidableEq, Repr

/-- Printable text of a sub-formula, used as a ComputationStep's formula
field. -/
def exprText : Expr → String
  | .input n => n
  | .const q => ratDisplay q
  | .add a b => "(" ++ exprText a ++ " + " ++ exprText b ++ ")"
  | .sub a b => "(" ++ exprText a ++ " - " ++ exprText b ++ ")"
  | .mul a b => "(" ++ exprText a ++ " * " ++ exprText b ++ ")"
  | .div a b => "(" ++ exprText a ++ " / " ++ exprText b ++ ")"

/-- Modelled from the spec (§3 FormulaCard): id, domain, topic, ordered
required inputs, and the expression graph given as the ordered named
sub-formulas the engine evaluates, plus the declared output variable. -/
structure FormulaCard where
  id : String
  domain : String
  topic : String
  required_inputs : List String
  defs : List (String × Expr)
  output_var : String
deriving DecidableEq, Repr

/-- Modelled from the spec (§3 VariableBinding): numeric value plus a
provenance reference. -/
structure Binding where
  value : ℚ
  provenance : String
deriving DecidableEq, Repr

/-- Modelled from the spec (§3 TaskPlan): required variable names,
candidate domain/topic, aggregation window and frequency, raw question. -/
structure TaskPlan where
  varNames : List String
  domain : Option String
  topic : Option String
  window : Option String
  frequency : Option String
  question : String
deriving DecidableEq, Repr

/-- Modelled from the spec (§3 ComputationStep): 1-based index, variable
produced, sub-formula text, numeric value. -/
structure ComputationStep where
  index : Nat
  varName : String
  formula : String
  value : ℚ
deriving DecidableEq, Repr

/-- Modelled from the spec (§3 SolveResult): the tagged result variant. -/
inductive SolveResult where
  | success : (card_id : String) → (selection_reason : String) →
      (inputs : List (String × ℚ)) → (steps : List ComputationStep) →
      (output_var : String) → (output_value : ℚ) → (is_fallback : Bool) →
      SolveResult
  | refused : (reason : String) → (missing_inputs : Option (List String)) →
      SolveResult
  | errored : (message : String) → SolveResult
deriving DecidableEq, Repr

/-- Look up a binding by variable name. -/
def lookupBinding (b : List (String × Binding)) (n : String) :
    Option Binding :=
  (b.find? (fun p => p.1 == n)).map Prod.snd

/-- Modelled from the spec (§3, §8): the required inputs of a card that
have no binding, in the card's declared input order. -/
def missingInputs (card : FormulaCard) (b : List (String × Binding)) :
    List String :=
  card.required_inputs.filter (fun n => (lookupBinding b n).isNone)

/-- Modelled from the spec (§4.2 SymbolicEngine): pure arithmetic
evaluation of one node in an environment; division by zero is an
`EvaluationError`, never coerced to a number. -/
def evalExpr (env : List (String × ℚ)) : Expr → Except String ℚ
  | .input n =>
    match env.find? (fun p => p.1 == n) with
    | some p => .ok p.2
    | none => .error ("EvaluationError: unknown variable " ++ n)
  | .const q => .ok q
  | .add a b => do pure ((← evalExpr env a) + (← evalExpr env b))
  | .sub a b => do pure ((← evalExpr env a) - (← evalExpr env b))
  | .mul a b => do pure ((← evalExpr env a) * (← evalExpr env b))
  | .div a b => do
    let x ← evalExpr env a
    let y ← evalExpr env b
    if y = 0 then .error "EvaluationError: division by zero"
    else pure (x / y)

/-- Modelled from the spec (§4.2): evaluate the card's sub-formulas in
order, extending the environment after each, and emit the ComputationStep
trace with gapless 1-based indices. -/
def runSteps (env : List (String × ℚ)) (i : Nat) :
    List (String × Expr) →
    Except String (List ComputationStep × List (String × ℚ))
  | [] => .ok ([], env)
  | (v, e) :: rest => do
    let x ← evalExpr env e
    let (tr, env') ← runSteps (env ++ [(v, x)]) (i + 1) rest
    pure ({ index := i, varName := v, formula := exprText e, value := x }
      :: tr, env')

/-- Modelled from the spec (§3, §4.2, §7): solve one selected card against
a binding set.  Any unbound required input refuses with the exact missing
list before any evaluation happens (no zero default); an evaluation fault
becomes `errored`; otherwise the step trace and the declared output
variable's value are packaged. -/
def solveCard (card : FormulaCard) (b : List (String × Binding))
    (selReason : String) (isFb : Bool) : SolveResult :=
  if (missingInputs card b).isEmpty then
    let env := card.required_inputs.filterMap
      (fun n => (lookupBinding b n).map (fun bd => (n, bd.value)))
    match runSteps env 1 card.defs with
    | .error m => .errored m
    | .ok (tr, env') =>
      match env'.find? (fun p => p.1 == card.output_var) with
      | none => .errored ("EvaluationError: output variable "
          ++ card.output_var ++ " not produced")
      | some p => .success card.id selReason env tr card.output_var p.2 isFb
  else .refused "missing required input" (some (missingInputs card b))

/-- Modelled from the spec (§4.1): size of the overlap between a card's
required inputs and the plan's extracted variables. -/
def overlapScore (plan : TaskPlan) (card : FormulaCard) : Nat :=
  (card.required_inputs.filter (fun n => plan.varNames.contains n)).length

/-- Modelled from the spec (§4.1): rule-matching filter — domain/topic
equality with the plan where the plan specifies them. -/
def domainTopicOk (plan : TaskPlan) (card : FormulaCard) : Bool :=
  (match plan.domain with | some d => card.domain == d | none => true)
    && (match plan.topic with | some t => card.topic == t | none => true)

/-- Modelled from the spec (§4.1): best-scoring card, ties broken by
earliest registration order (a later card replaces the best only when
strictly better). -/
def selectBest (score : FormulaCard → Nat) (registry : List FormulaCard) :
    Option FormulaCard :=
  registry.foldl
    (fun best c =>
      match best with
      | none => some c
      | some b => if score c > score b then some c else some b)
    none

/-- Modelled from the spec (§4.1, §4.4, §9): the knobs the spec leaves as
configuration — rule-match overlap threshold, heuristic absolute floor,
fallback confidence cap and penalty, refusal threshold. -/
structure PipelineConfig where
  ruleThreshold : Nat
  heuristicFloor : Nat
  fallbackCap : ℚ
  fallbackPenalty : ℚ
  scoreThreshold : ℚ
deriving DecidableEq, Repr

/-- Modelled from the spec (§4.1 CardSelector): rule matching over the
domain/topic-filtered candidates first; below the overlap threshold, a
heuristic match over the whole registry with confidence capped at
`fallbackCap`; below the absolute floor, no card.  Returns the card, a
selection confidence, a reason string and the fallback flag.  The exact
confidence formula is left open by the spec; a rule match scores 1 and a
heuristic match the cap, preserving the required strict ordering. -/
def selectCard (cfg : PipelineConfig) (registry : List FormulaCard)
    (plan : TaskPlan) : Option (FormulaCard × ℚ × String × Bool) :=
  let ruleCands := registry.filter (domainTopicOk plan)
  match selectBest (overlapScore plan) ruleCands with
  | some c =>
    if overlapScore plan c ≥ cfg.ruleThreshold then
      some (c, 1, "rule match: " ++ c.id, false)
    else
      match selectBest (overlapScore plan) registry with
      | some h =>
        if overlapScore plan h ≥ cfg.heuristicFloor then
          some (h, cfg.fallbackCap, "heuristic match: " ++ h.id, true)
        else none
      | none => none
  | none =>
    match selectBest (overlapScore plan) registry with
    | some h =>
      if overlapScore plan h ≥ cfg.heuristicFloor then
        some (h, cfg.fallbackCap, "heuristic match: " ++ h.id, true)
      else none
    | none => none

/-- Modelled from the spec (§4.4 ConfidenceScorer): minimum of the
sub-scores (binding completeness and the soft-check pass fraction are 1 at
this stage), scaled by the fallback penalty when the selection fell back. -/
def confidenceScore (cfg : PipelineConfig) (selConf : ℚ) (isFb : Bool) : ℚ :=
  min selConf (min 1 1) * (if isFb then cfg.fallbackPenalty else 1)

/-- Modelled from the spec (§2 control flow, §4, §7): the solve pipeline —
CardSelector, missing-input refusal, SymbolicEngine, confidence gate,
assembly.  A pure function of its inputs: no randomness, no clock, no
mutable state. -/
def solvePipeline (cfg : PipelineConfig) (registry : List FormulaCard)
    (plan : TaskPlan) (b : List (String × Binding)) : SolveResult :=
  match selectCard cfg registry plan with
  | none => .refused "no matching card" none
  | some (card, conf, selReason, isFb) =>
    match solveCard card b selReason isFb with
    | .success cid sr inp tr ov oval fb =>
      if confidenceScore cfg conf fb < cfg.scoreThreshold then
        .refused "low confidence" none
      else .success cid sr inp tr ov oval fb
    | r => r

/-- The ComputationStep trace of a result, when it is a success. -/
def resultSteps : SolveResult → Option (List ComputationStep)
  | .success _ _ _ tr _ _ _ => some tr
  | _ => none

/-- The output value of a result, when it is a success. -/
def resultOutput : SolveResult → Option ℚ
  | .success _ _ _ _ _ v _ => some v
  | _ => none

/-! ## Normal forms of the step-line computations -/

/-- Normal form of the line the current revision renders for step `st`
with 1-based number `i` (the `toFixed` call cannot throw here because the
receiver is always the result of the `Number(...)` coercion). -/
def newStepLine (i : Nat) (st : WireStep) : String :=
  toString i ++ ". " ++ st.varName ++ " = " ++ formulaShown st.formula
    ++ " = " ++ jsNumToFixed4 (jsNumber st.value)

/-- Normal form of the current revision's step list from `i` upward. -/
def newStepLines (i : Nat) : List WireStep → List String
  | [] => []
  | st :: rest => newStepLine i st :: newStepLines (i + 1) rest

theorem stepTextNew_eq (i : Nat) (st : WireStep) :
    stepTextNew i st = Except.ok (newStepLine i st) := rfl

theorem stepLinesE_new (l : List WireStep) :
    ∀ i, stepLinesE stepTextNew i l = Except.ok (newStepLines i l) := by
  induction l with
  | nil => intro i; rfl
  | cons st rest ih =>
    intro i
    show (stepTextNew i st >>= fun a =>
      stepLinesE stepTextNew (i + 1) rest >>= fun as => pure (a :: as)) = _
    rw [stepTextNew_eq, ih]
    rfl

/-- Closed form of the current revision's success rendering. -/
theorem renderNewE_success_eq (d : ResponseData) (hs : d.status = "success") :
    renderNewE d = .ok (.success
      { calcMode := if truthy d.is_fallback then "LLM fallback" else "SymPy"
        modeClass := if truthy d.is_fallback then "badge-llm"
          else "badge-sympy"
        cardId := d.card_id
        selectionReason := d.selection_reason
        inputsJson := d.inputs
        stepItems := newStepLines 1 d.steps
        outputVar := d.output_var
        outputValueText := jsDisplay d.output_value }) := by
  unfold renderNewE
  rw [if_pos hs, stepLinesE_new]
  rfl

theorem newStepLines_length (l : List WireStep) :
    ∀ i, (newStepLines i l).length = l.length := by
  induction l with
  | nil => intro i; rfl
  | cons st rest ih => intro i; simp [newStepLines, ih]

theorem newStepLines_get (l : List WireStep) :
    ∀ i k (hk : k < l.length) (hk' : k < (newStepLines i l).length),
      (newStepLines i l).get ⟨k, hk'⟩ = newStepLine (i + k) (l.get ⟨k, hk⟩) := by
  induction l with
  | nil => intro i k hk _; exact absurd hk (by simp)
  | cons st rest ih =>
    intro i k hk hk'
    cases k with
    | zero => rfl
    | succ k =>
      have h1 : k < rest.length := Nat.lt_of_succ_lt_succ hk
      have h2 : k < (newStepLines (i + 1) rest).length := by
        rw [newStepLines_length]; exact h1
      have := ih (i + 1) k h1 h2
      simpa [newStepLines, Nat.add_assoc, Nat.add_comm 1 k] using this

/-- When every step carries a non-empty formula and a number value, the
two revisions compute the same step lines (the placeholder and the
`Number(...)` coercion make no difference). -/
theorem stepLinesE_old_eq_new (l : List WireStep)
    (h : ∀ st ∈ l, st.formula ≠ "" ∧ isNumValue st.value = true) :
    ∀ i, stepLinesE stepTextOld i l = stepLinesE stepTextNew i l := by
  induction l with
  | nil => intro i; rfl
  | cons st rest ih =>
    intro i
    obtain ⟨hf, hv⟩ := h st (List.mem_cons_self st rest)
    have hrest : ∀ st ∈ rest, st.formula ≠ "" ∧ isNumValue st.value = true :=
      fun s hs => h s (List.mem_cons_of_mem st hs)
    show (stepTextOld i st >>= fun a =>
        stepLinesE stepTextOld (i + 1) rest >>= fun as => pure (a :: as))
      = (stepTextNew i st >>= fun a =>
        stepLinesE stepTextNew (i + 1) rest >>= fun as => pure (a :: as))
    rw [ih hrest]
    cases st with
    | mk vn f v =>
      cases v with
      | num n =>
        simp only [stepTextOld, stepTextNew, jsToFixedCall, jsNumber,
          formulaShown, if_neg hf]
      | str s => exact absurd hv (by simp [isNumValue])
      | boolean b => exact absurd hv (by simp [isNumValue])
      | null => exact absurd hv (by simp [isNumValue])
      | undefined => exact absurd hv (by simp [isNumValue])

/-- Away from the empty-array edge case the two revisions compute the same
missing-fields line. -/
theorem missingLine_eq (mi : Option (List String)) (h : mi ≠ some []) :
    missingLineOld mi = missingLineNew mi := by
  cases mi with
  | none => rfl
  | some l =>
    cases l with
    | nil => exact absurd rfl h
    | cons n ns => rfl

/-! ## Concrete fixtures

The Sharpe-ratio scenario of spec §8 and small concrete response objects,
used to instantiate the claim theorems. -/

/-- The Sharpe card of the spec's §8 scenario. -/
def sharpeCard : FormulaCard :=
  { id := "sharpe_ratio", domain := "portfolio", topic := "risk"
    required_inputs := ["mean", "std", "rf"]
    defs := [("excess_return", .sub (.input "mean") (.input "rf")),
             ("sharpe", .div (.input "excess_return") (.input "std"))]
    output_var := "sharpe" }

/-- A concrete pipeline configuration. -/
def cfg0 : PipelineConfig :=
  { ruleThreshold := 2, heuristicFloor := 1, fallbackCap := 1 / 2
    fallbackPenalty := 1 / 2, scoreThreshold := 1 / 4 }

/-- A task plan matching the Sharpe card. -/
def plan0 : TaskPlan :=
  { varNames := ["mean", "std", "rf"], domain := some "portfolio"
    topic := some "risk", window := none, frequency := none
    question := "what is the sharpe ratio" }

/-- The §8 bindings: mean 0.08, std 0.12, rf 0.02. -/
def bindings0 : List (String × Binding) :=
  [("mean", ⟨8 / 100, "doc:returns"⟩), ("std", ⟨12 / 100, "doc:returns"⟩),
   ("rf", ⟨2 / 100, "doc:treasury"⟩)]

/-- The §8 missing-input scenario: same bindings with `std` unbound. -/
def bindingsNoStd : List (String × Binding) :=
  [("mean", ⟨8 / 100, "doc:returns"⟩), ("rf", ⟨2 / 100, "doc:treasury"⟩)]

/-- A success response whose single step has an empty formula string. -/
def respEmptyFormula : ResponseData :=
  { status := "success", card_id := "sharpe_ratio", selection_reason := "rule"
    inputs := [("mean", .num (.finite (8 / 100)))]
    steps := [{ varName := "x", formula := "", value := .num (.finite (1 / 2)) }]
    output_var := "x", output_value := .num (.finite (1 / 2))
    is_fallback := .boolean false, reason := "", missing_inputs := none
    message := "" }

/-- A well-formed success response (non-empty formulas, number values). -/
def respSuccess : ResponseData :=
  { status := "success", card_id := "sharpe_ratio", selection_reason := "rule"
    inputs := [("mean", .num (.finite (8 / 100))),
               ("std", .num (.finite (12 / 100))),
               ("rf", .num (.finite (2 / 100)))]
    steps := [{ varName := "excess_return", formula := "mean - rf"
                value := .num (.finite (6 / 100)) },
              { varName := "sharpe", formula := "excess_return / std"
                value := .num (.finite (1 / 2)) }]
    output_var := "sharpe", output_value := .num (.finite (1 / 2))
    is_fallback := .boolean false, reason := "", missing_inputs := none
    message := "" }

/-- A success response whose step value is a string, not a number. -/
def respStringValue : ResponseData :=
  { status := "success", card_id := "sharpe_ratio", selection_reason := "rule"
    inputs := []
    steps := [{ varName := "x", formula := "f", value := .str "oops" }]
    output_var := "x", output_value := .str "oops"
    is_fallback := .boolean false, reason := "", missing_inputs := none
    message := "" }

/-- A refused response carrying an empty `missing_inputs` array. -/
def respRefusedEmptyMissing : ResponseData :=
  { status := "refused", card_id := "", selection_reason := "", inputs := []
    steps := [], output_var := "", output_value := .undefined
    is_fallback := .undefined, reason := "low confidence"
    missing_inputs := some [], message := "" }

/-- The §8 refused response: `std` missing. -/
def respRefusedStd : ResponseData :=
  { status := "refused", card_id := "", selection_reason := "", inputs := []
    steps := [], output_var := "", output_value := .undefined
    is_fallback := .undefined, reason := "missing required input"
    missing_inputs := some ["std"], message := "" }

/-- An initial DOM state (loader hidden, button enabled, result hidden). -/
def dom0 : Dom :=
  { loaderHidden := true, buttonDisabled := false, resultHidden := true
    resultContent := none }

/-- A concrete form state with both selects set. -/
def formState0 : FormState :=
  { question := "what is the sharpe ratio", domainVal := "portfolio"
    topicVal := "risk" }

/-- A concrete domain→topics mapping. -/
def topicMap0 : String → Option (List String) :=
  fun d => if d = "portfolio" then some ["風險", "報酬"] else none

/-! ## Claim statements

Each `CnAt` is the body of claim Cn at a particular input, so that the
claim theorem is `∀ inputs, hypotheses → CnAt inputs` and its witness is
`CnAt` at a concrete instance. -/

/-- C1 body: the two pipeline runs agree as whole results, as
ComputationStep sequences and as output values. -/
def C1At (cfg : PipelineConfig) (registry : List FormulaCard)
    (p₁ p₂ : TaskPlan) (b₁ b₂ : List (String × Binding)) : Prop :=
  solvePipeline cfg registry p₁ b₁ = solvePipeline cfg registry p₂ b₂
    ∧ resultSteps (solvePipeline cfg registry p₁ b₁)
        = resultSteps (solvePipeline cfg registry p₂ b₂)
    ∧ resultOutput (solvePipeline cfg registry p₁ b₁)
        = resultOutput (solvePipeline cfg registry p₂ b₂)

/-- C2 body: the solve result is `Refused` with reason
"missing required input" and exactly the unbound required inputs — a name
is in the list iff it is a required input with no binding. -/
def C2At (card : FormulaCard) (b : List (String × Binding))
    (sr : String) (fb : Bool) : Prop :=
  solveCard card b sr fb
      = .refused "missing required input" (some (missingInputs card b))
    ∧ ∀ n, n ∈ missingInputs card b
        ↔ n ∈ card.required_inputs ∧ lookupBinding b n = none

/-- C3 as stated: the success rendering shows the card id, the selection
reason, the inputs map, the closing `output_var = output_value` line, and
one line per step in order, numbered from 1, each showing the step's
variable name, its formula text and its value to 4 decimal places. -/
def C3ClaimAt (d : ResponseData) : Prop :=
  d.status = "success" →
  ∃ v, renderNewE d = .ok (.success v)
    ∧ v.cardId = d.card_id
    ∧ v.selectionReason = d.selection_reason
    ∧ v.inputsJson = d.inputs
    ∧ v.outputVar = d.output_var
    ∧ v.outputValueText = jsDisplay d.output_value
    ∧ v.stepItems.length = d.steps.length
    ∧ ∀ k (hk : k < d.steps.length) (hk' : k < v.stepItems.length),
        v.stepItems.get ⟨k, hk'⟩
          = toString (k + 1) ++ ". " ++ (d.steps.get ⟨k, hk⟩).varName
            ++ " = " ++ (d.steps.get ⟨k, hk⟩).formula ++ " = "
            ++ jsNumToFixed4 (jsNumber (d.steps.get ⟨k, hk⟩).value)

/-- C3 amended body: as C3, except a falsy (empty) formula string is
rendered as the placeholder 公式 (`step.formula || "公式"`). -/
def C3AmendedAt (d : ResponseData) : Prop :=
  ∃ v, renderNewE d = .ok (.success v)
    ∧ v.cardId = d.card_id
    ∧ v.selectionReason = d.selection_reason
    ∧ v.inputsJson = d.inputs
    ∧ v.outputVar = d.output_var
    ∧ v.outputValueText = jsDisplay d.output_value
    ∧ v.stepItems.length = d.steps.length
    ∧ ∀ k (hk : k < d.steps.length) (hk' : k < v.stepItems.length),
        v.stepItems.get ⟨k, hk'⟩ = newStepLine (k + 1) (d.steps.get ⟨k, hk⟩)

/-- C4 body: on a refused response both revisions make the result element
visible (the current one via its DOM transformer) and show the reason; the
missing-fields line lists exactly `missing_inputs` joined by ", " when the
list is non-empty, and is absent when the field is absent. -/
def C4At (d : ResponseData) : Prop :=
  (∀ dom : Dom, ∃ dm, renderResultNewDom d dom = .ok dm
      ∧ dm.resultHidden = false
      ∧ dm.resultContent
          = some (.refused d.reason (missingLineNew d.missing_inputs)))
    ∧ renderOldE d = .ok (.refused d.reason (missingLineOld d.missing_inputs))
    ∧ (∀ l, d.missing_inputs = some l → l ≠ [] →
        missingLineNew d.missing_inputs
            = some ("缺少欄位：" ++ String.intercalate ", " l)
          ∧ missingLineOld d.missing_inputs
            = some ("缺少欄位：" ++ String.intercalate ", " l))
    ∧ (d.missing_inputs = none →
        missingLineNew d.missing_inputs = none
          ∧ missingLineOld d.missing_inputs = none)

/-- C5 body: the 計算模式 label is "LLM fallback" exactly when
`is_fallback` is truthy and "SymPy" otherwise, and every other success
field of the rendering is unchanged under any replacement of
`is_fallback`. -/
def C5At (d : ResponseData) : Prop :=
  ∃ v, renderNewE d = .ok (.success v)
    ∧ (v.calcMode = "LLM fallback" ↔ truthy d.is_fallback = true)
    ∧ (v.calcMode = "SymPy" ↔ truthy d.is_fallback = false)
    ∧ ∀ fb' : JSValue, ∃ v',
        renderNewE { d with is_fallback := fb' } = .ok (.success v')
          ∧ v'.cardId = v.cardId
          ∧ v'.selectionReason = v.selectionReason
          ∧ v'.inputsJson = v.inputsJson
          ∧ v'.stepItems = v.stepItems
          ∧ v'.outputVar = v.outputVar
          ∧ v'.outputValueText = v.outputValueText

/-- C6 body: the handler issues exactly one request — a POST of a JSON
object with exactly the keys question, domain, topic, where the selects'
empty string becomes null. -/
def C6At (fs : FormState) (outcome : FetchOutcome) (dom : Dom) : Prop :=
  (submitHandler fs outcome dom).2 = [mkSolveRequest fs]
    ∧ (mkSolveRequest fs).url = "/api/solve"
    ∧ (mkSolveRequest fs).method = "POST"
    ∧ (mkSolveRequest fs).contentType = "application/json"
    ∧ (mkSolveRequest fs).body.map Prod.fst = ["question", "domain", "topic"]
    ∧ (mkSolveRequest fs).body
        = [("question", .jstr fs.question),
           ("domain", if fs.domainVal = "" then JsonVal.jnull
             else .jstr fs.domainVal),
           ("topic", if fs.topicVal = "" then JsonVal.jnull
             else .jstr fs.topicVal)]

/-- C7 body: the rebuilt topic select starts with the default 全部主題
option, is followed by exactly the mapping's entries for the domain in
order, and collapses to the default option alone for the empty domain or
an unmapped domain. -/
def C7At (m : String → Option (List String)) (d : String) : Prop :=
  (updateTopicOptions m d).head? = some ("", "全部主題")
    ∧ (∀ l, d ≠ "" → m d = some l →
        updateTopicOptions m d = ("", "全部主題") :: l.map (fun t => (t, t)))
    ∧ (d = "" → updateTopicOptions m d = [("", "全部主題")])
    ∧ (m d = none → updateTopicOptions m d = [("", "全部主題")])

/-- C8 as stated: the two revisions present the same information on every
response object. -/
def C8ClaimAt (d : ResponseData) : Prop :=
  infoOld d = infoNew d

/-- C9 body: the current revision's render completes without throwing. -/
def C9At (d : ResponseData) : Prop :=
  ∃ r, renderNewE d = Except.ok r

/-- C10 body: the handler first enters the loading state, and its final
DOM state has the loader hidden and the button re-enabled. -/
def C10At (fs : FormState) (outcome : FetchOutcome) (dom : Dom) : Prop :=
  (submitPrelude dom).loaderHidden = false
    ∧ (submitPrelude dom).buttonDisabled = true
    ∧ (submitHandler fs outcome dom).1.loaderHidden = true
    ∧ (submitHandler fs outcome dom).1.buttonDisabled = false

/-! ## Claim theorems -/

/-- C1: running the solve pipeline twice on the same TaskPlan and the same
VariableBinding set yields identical results — in particular identical
ComputationStep sequences and the same output value.  The pipeline is a
pure function of its inputs (no randomness, no clock), so the two runs
coincide definitionally. -/
theorem C1_pipeline_deterministic (cfg : PipelineConfig)
    (registry : List FormulaCard) (p₁ p₂ : TaskPlan)
    (b₁ b₂ : List (String × Binding)) (hp : p₁ = p₂) (hb : b₁ = b₂) :
    C1At cfg registry p₁ p₂ b₁ b₂ := by
  subst hp
  subst hb
  exact ⟨rfl, rfl, rfl⟩

/-- Witness for C1 at the spec's Sharpe scenario. -/
theorem C1_pipeline_deterministic_witness :
    plan0 = plan0 ∧ bindings0 = bindings0
      ∧ C1At cfg0 [sharpeCard] plan0 plan0 bindings0 bindings0 :=
  ⟨rfl, rfl, C1_pipeline_deterministic cfg0 [sharpeCard] plan0 plan0
    bindings0 bindings0 rfl rfl⟩

/-- C2: when at least one required input of a FormulaCard has no binding,
solving refuses with `missing_inputs` exactly the unbound required inputs
— a name is listed iff it is required and unbound — and no evaluation
(hence no zero default) takes place. -/
theorem C2_missing_inputs_refused (card : FormulaCard)
    (b : List (String × Binding)) (sr : String) (fb : Bool)
    (h : ∃ n, n ∈ card.required_inputs ∧ lookupBinding b n = none) :
    C2At card b sr fb := by
  have hmem : ∀ n, n ∈ missingInputs card b
      ↔ n ∈ card.required_inputs ∧ lookupBinding b n = none := by
    intro n
    simp [missingInputs, List.mem_filter, Option.isNone_iff_eq_none]
  refine ⟨?_, hmem⟩
  obtain ⟨n, hn, hnb⟩ := h
  have hne : missingInputs card b ≠ [] :=
    List.ne_nil_of_mem ((hmem n).mpr ⟨hn, hnb⟩)
  unfold solveCard
  rw [if_neg ?_]
  intro hemp
  exact hne (by simpa using hemp)

/-- Witness for C2 at the spec's missing-`std` Sharpe scenario. -/
theorem C2_missing_inputs_refused_witness :
    (∃ n, n ∈ sharpeCard.required_inputs
        ∧ lookupBinding bindingsNoStd n = none)
      ∧ C2At sharpeCard bindingsNoStd "rule match: sharpe_ratio" false :=
  ⟨⟨"std", by decide, by decide⟩,
   C2_missing_inputs_refused sharpeCard bindingsNoStd
     "rule match: sharpe_ratio" false ⟨"std", by decide, by decide⟩⟩

/-- C3 (amended): the success rendering shows the card id, the selection
reason, the inputs map, the `output_var = output_value` closing line, and
one line per step in array order numbered from 1, each showing the step's
variable name, its formula text — with the placeholder 公式 substituted
when the formula string is empty — and its value coerced by `Number` and
formatted to 4 decimal places. -/
theorem C3_success_rendering (d : ResponseData)
    (hs : d.status = "success") : C3AmendedAt d := by
  refine ⟨_, renderNewE_success_eq d hs, rfl, rfl, rfl, rfl, rfl,
    newStepLines_length d.steps 1, ?_⟩
  intro k hk hk'
  have h := newStepLines_get d.steps 1 k hk hk'
  rw [Nat.add_comm 1 k] at h
  exact h

/-- Witness for C3 (amended) at a concrete success response. -/
theorem C3_success_rendering_witness :
    respSuccess.status = "success" ∧ C3AmendedAt respSuccess :=
  ⟨rfl, C3_success_rendering respSuccess rfl⟩

/-- C3 as stated fails: on a success response whose step has an empty
formula string, the rendered line shows the placeholder 公式, not the
step's formula text. -/
theorem C3_counterexample : ¬ C3ClaimAt respEmptyFormula := by
  intro h
  obtain ⟨v, hv, -, -, -, -, -, -, hget⟩ := h rfl
  rw [renderNewE_success_eq respEmptyFormula rfl] at hv
  simp only [Except.ok.injEq, RenderedNew.success.injEq] at hv
  subst hv
  exact absurd (hget 0 (by decide) (by decide)) (by decide)

/-- C4: a refused response makes the result element visible and shows the
reason; the missing-fields line lists exactly `missing_inputs` joined by
", " when the list is non-empty, and is absent when the field is absent —
in both script revisions. -/
theorem C4_refused_rendering (d : ResponseData)
    (hr : d.status = "refused") : C4At d := by
  have hns : ¬ d.status = "success" := by
    rw [hr]
    decide
  have hnew : renderNewE d
      = .ok (.refused d.reason (missingLineNew d.missing_inputs)) := by
    unfold renderNewE
    rw [if_neg hns, if_pos hr]
    rfl
  have hold : renderOldE d
      = .ok (.refused d.reason (missingLineOld d.missing_inputs)) := by
    unfold renderOldE
    rw [if_neg hns, if_pos hr]
    rfl
  refine ⟨?_, hold, ?_, ?_⟩
  · intro dom
    refine ⟨{ dom with
                resultHidden := false,
                resultContent := some (.refused d.reason
                  (missingLineNew d.missing_inputs)) }, ?_, rfl, rfl⟩
    unfold renderResultNewDom
    rw [hnew]
  · intro l hml hlne
    rw [hml]
    cases l with
    | nil => exact absurd rfl hlne
    | cons n ns => exact ⟨rfl, rfl⟩
  · intro hmn
    rw [hmn]
    exact ⟨rfl, rfl⟩

/-- Witness for C4 at the spec's missing-`std` refusal. -/
theorem C4_refused_rendering_witness :
    respRefusedStd.status = "refused" ∧ C4At respRefusedStd :=
  ⟨rfl, C4_refused_rendering respRefusedStd rfl⟩

/-- C5: the 計算模式 badge reads "LLM fallback" exactly when `is_fallback`
is truthy and "SymPy" otherwise, and no other success field of the
rendering depends on `is_fallback`. -/
theorem C5_mode_badge (d : ResponseData) (hs : d.status = "success") :
    C5At d := by
  refine ⟨_, renderNewE_success_eq d hs, ?_, ?_, ?_⟩
  · cases ht : truthy d.is_fallback <;> simp [ht]
  · cases ht : truthy d.is_fallback <;> simp [ht]
  · intro fb'
    exact ⟨_, renderNewE_success_eq { d with is_fallback := fb' } hs,
      rfl, rfl, rfl, rfl, rfl, rfl⟩

/-- Witness for C5 at a concrete success response. -/
theorem C5_mode_badge_witness :
    respSuccess.status = "success" ∧ C5At respSuccess :=
  ⟨rfl, C5_mode_badge respSuccess rfl⟩

/-- C6: every form submission issues exactly one request — a POST to
/api/solve whose JSON body has exactly the keys question, domain and
topic, with null for a select holding the empty string. -/
theorem C6_single_post_request (fs : FormState) (outcome : FetchOutcome)
    (dom : Dom) : C6At fs outcome dom := by
  exact ⟨rfl, rfl, rfl, rfl, rfl, rfl⟩

/-- C7: the topic select is rebuilt with the default 全部主題 option first
followed by exactly the mapping's entries in order, and collapses to the
default alone for the empty or unmapped domain. -/
theorem C7_topic_select_rebuild (m : String → Option (List String))
    (d : String) : C7At m d := by
  refine ⟨?_, ?_, ?_, ?_⟩
  · simp [updateTopicOptions]
  · intro l hd hm
    simp [updateTopicOptions, hd, hm]
  · intro hd
    simp [updateTopicOptions, hd]
  · intro hm
    by_cases hd : d = "" <;> simp [updateTopicOptions, hd, hm]

/-- Witness for C7 at a concrete mapping and domain. -/
theorem C7_topic_select_rebuild_witness : C7At topicMap0 "portfolio" :=
  C7_topic_select_rebuild topicMap0 "portfolio"

/-- C8 as stated fails: on a refused response whose `missing_inputs` is
the empty array, the old revision shows a bare 缺少欄位： line (an empty
array is truthy in JavaScript) while the current revision shows none. -/
theorem C8_counterexample : ¬ C8ClaimAt respRefusedEmptyMissing := by
  intro h
  have h' : infoOld respRefusedEmptyMissing
      = infoNew respRefusedEmptyMissing := h
  have h1 : infoOld respRefusedEmptyMissing
      = .ok (.refused "low confidence" (some "缺少欄位：")) := rfl
  have h2 : infoNew respRefusedEmptyMissing
      = .ok (.refused "low confidence" none) := rfl
  rw [h1, h2] at h'
  simp at h'

/-- C8 (amended): the two revisions present the same information on every
response whose `missing_inputs` is not the empty array and whose steps all
carry a non-empty formula string and a number value (the cases the
counterexample and the coercion/placeholder differences force out). -/
theorem C8_info_equivalence (d : ResponseData)
    (hm : d.missing_inputs ≠ some [])
    (hsteps : ∀ st ∈ d.steps, st.formula ≠ "" ∧ isNumValue st.value = true) :
    C8ClaimAt d := by
  unfold C8ClaimAt infoOld infoNew renderOldE renderNewE
  by_cases h1 : d.status = "success"
  · simp only [if_pos h1]
    rw [stepLinesE_old_eq_new d.steps hsteps 1]
    simp only [stepLinesE_new]
    rfl
  · simp only [if_neg h1]
    by_cases h2 : d.status = "refused"
    · simp only [if_pos h2]
      rw [missingLine_eq d.missing_inputs hm]
      rfl
    · simp only [if_neg h2]
      rfl

/-- Witness for C8 (amended) at a concrete success response. -/
theorem C8_info_equivalence_witness :
    respSuccess.missing_inputs ≠ some []
      ∧ (∀ st ∈ respSuccess.steps,
          st.formula ≠ "" ∧ isNumValue st.value = true)
      ∧ C8ClaimAt respSuccess :=
  ⟨by decide, by decide,
   C8_info_equivalence respSuccess (by decide) (by decide)⟩

/-- C9: on a success response the current revision's render completes
without throwing, whatever the runtime type of each step's value, because
`Number(...)` is applied before `toFixed(4)`. -/
theorem C9_render_total (d : ResponseData) (hs : d.status = "success") :
    C9At d :=
  ⟨_, renderNewE_success_eq d hs⟩

/-- Witness for C9 at a success response whose step value is a string. -/
theorem C9_render_total_witness :
    respStringValue.status = "success" ∧ C9At respStringValue :=
  ⟨rfl, C9_render_total respStringValue rfl⟩

/-- C10: the submit handler first enters the loading state (loader
visible, button disabled), and whatever the outcome of the fetch, the
parse and the render, its final DOM state has the loader hidden and the
button re-enabled. -/
theorem C10_loading_state (fs : FormState) (outcome : FetchOutcome)
    (dom : Dom) : C10At fs outcome dom := by
  exact ⟨rfl, rfl, rfl, rfl⟩

end VerifiQuant
